import Mathlib

/-!
Shallow embedding of the `alynt-drop-webhook` Flask handlers
(`src/webhook.py` and `src/render_webhook.py`).

Modelling conventions:
* JSON values are the inductive `Json`; JSON numbers are decimals
  `mant / 10 ^ exp` so that literals such as `19.99` are exact.
* `request.get_json()` is an `Option Json` argument: `none` means the call
  raised (malformed body, caught by the route's `except`), `some .null`
  means it returned Python `None` (empty/absent body, matching the
  `data or` guard style the source uses).
* `datetime.now().isoformat()` is an explicit `now : String` argument.
* Python `dict.get` on a non-dict raises `AttributeError`; this is the
  `Except String` error of `pyGet`.  Query args and headers are
  association lists of strings.
* Flask route handlers become total functions returning an HTTP status
  code paired with a body (`Json` or plain text).
-/

namespace AlyntDrop

/-- A JSON value; numbers are exact decimals `mant / 10 ^ exp`. -/
inductive Json where
  | null : Json
  | bool (b : Bool) : Json
  | num (mant : Int) (exp : Nat) : Json
  | str (s : String) : Json
  | arr (elems : List Json) : Json
  | obj (fields : List (String × Json)) : Json

/-- builds an HTTP response body: JSON or plain text. -/
inductive HttpBody where
  | json (j : Json) : HttpBody
  | text (s : String) : HttpBody

/-- HTTP request method (only the two that the routes accept). -/
inductive Method where
  | get : Method
  | post : Method

/-- Python truthiness of a JSON value (`None`, `False`, `0`, `""`, `[]`,
and an empty dict are falsy). -/
def jsonTruthy : Json → Bool
  | .null => false
  | .bool b => b
  | .num m _ => m != 0
  | .str s => s != ""
  | .arr l => !l.isEmpty
  | .obj f => !f.isEmpty

/-- Python `a or b` on JSON values. -/
def pyOr (a b : Json) : Json :=
  if jsonTruthy a then a else b

/-- Truthiness of an optional query-arg string (`None` and `""` are falsy). -/
def pyTruthyStr (o : Option String) : Bool :=
  match o with
  | none => false
  | some s => s != ""

/-- Python `a or b` on optional query-arg strings. -/
def pyOrStr (a b : Option String) : Option String :=
  if pyTruthyStr a then a else b

/-- Python `data.get(key, dflt)`: a lookup with default on a dict, an
`AttributeError` on any non-dict value. -/
def pyGet (data : Json) (key : String) (dflt : Json) : Except String Json :=
  match data with
  | .obj fields => .ok ((List.lookup key fields).getD dflt)
  | _ => .error "AttributeError"

/-- Field lookup inside a JSON object (used to state properties of
response bodies). -/
def Json.lookup? (j : Json) (key : String) : Option Json :=
  match j with
  | .obj fields => List.lookup key fields
  | _ => none

/-- Whether a JSON value is a string. -/
def Json.isStr : Json → Bool
  | .str _ => true
  | _ => false

/-- Whether a JSON value is an object. -/
def Json.isObj : Json → Bool
  | .obj _ => true
  | _ => false

/-- Field lookup on a response body: only JSON bodies have fields. -/
def HttpBody.jsonLookup? (b : HttpBody) (key : String) : Option Json :=
  match b with
  | .json j => j.lookup? key
  | .text _ => none

/-- Python `==` between a JSON value and a string literal: string contents
compare, every other type is unequal (never an error). -/
def jsonEqStr (j : Json) (s : String) : Bool :=
  match j with
  | .str t => t == s
  | _ => false

/-- Renders a decimal `mant / 10 ^ exp` the way Python prints the float
literal it came from. -/
def showDecimal (m : Int) (e : Nat) : String :=
  if e = 0 then toString m
  else
    let p : Int := (10 : Int) ^ e
    let frac := toString (m % p).toNat
    toString (m / p) ++ "." ++ String.mk (List.replicate (e - frac.length) '0') ++ frac

/-- Python `str()` of a JSON value (containers abbreviated; only used to
build log-style message strings, which no dispatch decision reads). -/
def pyShow : Json → String
  | .null => "None"
  | .bool true => "True"
  | .bool false => "False"
  | .num m e => showDecimal m e
  | .str s => s
  | .arr _ => "[...]"
  | .obj _ => "\x7b...\x7d"

/-! ## `src/webhook.py` -/

/-- eBay Verification Token constant of `webhook.py`. -/
def EBAY_VERIFICATION_TOKEN : String := "09kErMQPDnrYeBbQJFK8R4hK5Li3n30Q"

/-- `verify_ebay_signature`: looks the signature header up, then returns
`True` on every path ("Allow for testing", "simplified for demo"). -/
def verify_ebay_signature (headers : List (String × String)) (payload : String)
    (verification_token : String) : Bool :=
  match List.lookup "X-EBAY-SIGNATURE" headers with
  | none => true
  | some ebay_signature => if ebay_signature == "" then true else true

/-- The field extraction of `handle_item_sold`:
`itemId` defaults to `None`, `buyer` to an empty dict, `quantity` to `1`,
`price` to `0`. -/
def itemSoldExtract (data : Json) : Except String (Json × Json × Json × Json) := do
  let item_id ← pyGet data "itemId" .null
  let buyer_info ← pyGet data "buyer" (.obj [])
  let quantity ← pyGet data "quantity" (.num 1 0)
  let price ← pyGet data "price" (.num 0 0)
  return (item_id, buyer_info, quantity, price)

/-- `handle_item_sold`. -/
def handle_item_sold (data : Json) : Nat × Json :=
  match itemSoldExtract data with
  | .error e => (500, .obj [("error", .str e)])
  | .ok (_item_id, _buyer_info, _quantity, price) =>
    (200, .obj [("status", .str "processed"),
                ("action", .str "sale_recorded"),
                ("message", .str ("Sale processed: $" ++ pyShow price)),
                ("next_step", .str "place_cj_order")])

/-- The field extraction of `handle_order_paid`: `orderId` and
`paymentStatus` both default to `None`. -/
def orderPaidExtract (data : Json) : Except String (Json × Json) := do
  let order_id ← pyGet data "orderId" .null
  let payment_status ← pyGet data "paymentStatus" .null
  return (order_id, payment_status)

/-- `handle_order_paid`. -/
def handle_order_paid (data : Json) : Nat × Json :=
  match orderPaidExtract data with
  | .error e => (500, .obj [("error", .str e)])
  | .ok _ =>
    (200, .obj [("status", .str "processed"),
                ("action", .str "payment_confirmed")])

/-- The field extraction of `handle_shipping_request`: `orderId` defaults
to `None`. -/
def shippingExtract (data : Json) : Except String Json :=
  pyGet data "orderId" .null

/-- `handle_shipping_request`. -/
def handle_shipping_request (data : Json) : Nat × Json :=
  match shippingExtract data with
  | .error e => (500, .obj [("error", .str e)])
  | .ok _ =>
    (200, .obj [("status", .str "processed"),
                ("action", .str "tracking_provided")])

/-- The field extraction of `handle_account_deletion`: `userId` defaults
to `"unknown"`, `deletionDate` to the current timestamp. -/
def accountDeletionExtract (data : Json) (now : String) :
    Except String (Json × Json) := do
  let user_id ← pyGet data "userId" (.str "unknown")
  let deletion_date ← pyGet data "deletionDate" (.str now)
  return (user_id, deletion_date)

/-- `handle_account_deletion`. -/
def handle_account_deletion (data : Json) (now : String) : Nat × Json :=
  match accountDeletionExtract data now with
  | .error e => (500, .obj [("error", .str e)])
  | .ok _ =>
    (200, .obj [("status", .str "processed"),
                ("action", .str "account_deletion_acknowledged"),
                ("message", .str "No user data to delete - dropshipping automation only")])

/-- `handle_ebay_notification` (route `POST /api/webhook/ebay`).
`body` is the `request.get_json()` outcome, `raw` is `request.data`.
The route's `except Exception` turns any raise (JSON parse failure,
`.get` on a non-dict) into a 500 `Processing failed` response. -/
def handle_ebay_notification (body : Option Json) (headers : List (String × String))
    (raw : String) (now : String) : Nat × Json :=
  match body with
  | none => (500, .obj [("error", .str "Processing failed")])
  | some data =>
    if !(verify_ebay_signature headers raw EBAY_VERIFICATION_TOKEN) then
      (401, .obj [("error", .str "Invalid signature")])
    else
      match pyGet data "eventType" (.str "") with
      | .error _ => (500, .obj [("error", .str "Processing failed")])
      | .ok notification_type =>
        if jsonEqStr notification_type "ItemSold" then
          handle_item_sold data
        else if jsonEqStr notification_type "OrderPaid" then
          handle_order_paid data
        else if jsonEqStr notification_type "ShippingLabelRequested" then
          handle_shipping_request data
        else if jsonEqStr notification_type "ACCOUNT_DELETION" ||
                jsonEqStr notification_type "MARKETPLACE_ACCOUNT_DELETION" then
          handle_account_deletion data now
        else
          (200, .obj [("status", .str "received"),
                      ("verification_token", .str "verified")])

/-- `verify_webhook_endpoint` (route `GET /api/webhook/ebay/verify`):
echoes a truthy `challenge` arg, otherwise returns a status document
carrying the current timestamp. -/
def verify_webhook_endpoint (args : List (String × String)) (now : String) :
    Nat × HttpBody :=
  let challenge := List.lookup "challenge" args
  if pyTruthyStr challenge then
    (200, .text (challenge.getD ""))
  else
    (200, .json (.obj [("status", .str "verified"),
                       ("endpoint", .str "eBay webhook endpoint active"),
                       ("verification_token", .str "configured"),
                       ("timestamp", .str now)]))

/-- `verify_deletion_endpoint_test`
(route `GET /api/marketplace-account-deletion/verify`): echoes the first
truthy of `challenge_code`, `challenge`, `verification_token`. -/
def verify_deletion_endpoint_test (args : List (String × String)) (now : String) :
    Nat × HttpBody :=
  let challenge := pyOrStr (pyOrStr (List.lookup "challenge_code" args)
                                    (List.lookup "challenge" args))
                           (List.lookup "verification_token" args)
  if pyTruthyStr challenge then
    (200, .text (challenge.getD ""))
  else
    (200, .json (.obj [("status", .str "verified"),
                       ("endpoint", .str "marketplace-account-deletion"),
                       ("ready", .bool true),
                       ("timestamp", .str now)]))

/-- `process_account_deletion`: its `try` body performs no fallible
operation, so only the success dict (with `deleted = True`) is ever
built; the `except` branch with `deleted = False` is dead code. -/
def process_account_deletion (user_id marketplace _deletion_date : Json)
    (now : String) : Json :=
  .obj [("deleted", .bool true),
        ("details", .str "No user account data stored - dropshipping automation processes orders only"),
        ("user_id", user_id),
        ("marketplace", marketplace),
        ("processed_at", .str now)]

/-- The field extraction of the POST branch of
`handle_marketplace_account_deletion`: `userId` defaults to `"unknown"`,
`marketplace` to `"eBay"`, `deletionDate` to the current timestamp. -/
def deletionPostExtract (data : Json) (now : String) :
    Except String (Json × Json × Json) := do
  let user_id ← pyGet data "userId" (.str "unknown")
  let marketplace ← pyGet data "marketplace" (.str "eBay")
  let deletion_date ← pyGet data "deletionDate" (.str now)
  return (user_id, marketplace, deletion_date)

/-- `handle_marketplace_account_deletion`
(route `GET, POST /api/marketplace-account-deletion`).  GET answers the
challenge echo or an info document; POST acknowledges the deletion
notification, substituting `data or` with an empty dict. -/
def handle_marketplace_account_deletion (method : Method)
    (args : List (String × String)) (body : Option Json)
    (headers : List (String × String)) (now : String) : Nat × HttpBody :=
  match method with
  | .get =>
    let challenge := pyOrStr (List.lookup "challenge_code" args)
                             (List.lookup "challenge" args)
    if pyTruthyStr challenge then
      (200, .text (challenge.getD ""))
    else
      (200, .json (.obj [("status", .str "active"),
                         ("service", .str "marketplace-account-deletion"),
                         ("description", .str "eBay marketplace account deletion compliance endpoint"),
                         ("methods", .arr [.str "POST", .str "GET"]),
                         ("compliance", .str "eBay Developer Program Requirements"),
                         ("verification_token", .str "configured"),
                         ("timestamp", .str now),
                         ("version", .str "1.0.0")]))
  | .post =>
    match body with
    | none =>
      (500, .json (.obj [("status", .str "error"),
                         ("message", .str "Failed to process account deletion"),
                         ("error", .str "Failed to decode JSON object"),
                         ("timestamp", .str now)]))
    | some parsed =>
      let data := pyOr parsed (.obj [])
      let notification_id := (List.lookup "X-EBAY-NOTIFICATION-ID" headers).getD "unknown"
      let _timestamp := (List.lookup "X-EBAY-NOTIFICATION-TIMESTAMP" headers).getD now
      match deletionPostExtract data now with
      | .error e =>
        (500, .json (.obj [("status", .str "error"),
                           ("message", .str "Failed to process account deletion"),
                           ("error", .str e),
                           ("timestamp", .str now)]))
      | .ok (user_id, marketplace, deletion_date) =>
        let result := process_account_deletion user_id marketplace deletion_date now
        (200, .json (.obj [("status", .str "success"),
                           ("message", .str "Account deletion notification processed successfully"),
                           ("notificationId", .str notification_id),
                           ("processedAt", .str now),
                           ("userDataDeleted", (result.lookup? "deleted").getD (.bool true)),
                           ("details", (result.lookup? "details").getD (.str "No user data stored - dropshipping automation only"))]))

/-! ## `src/render_webhook.py` -/

/-- Verification token constant of `render_webhook.py`. -/
def VERIFICATION_TOKEN : String := "alynt-drop-webhook-token-2025"

/-- `marketplace_deletion`
(route `GET, POST /webhooks/marketplace-account-deletion`).  GET checks
`verification_token` against the configured constant and echoes a truthy
`challenge_code`; POST acknowledges with `received`. -/
def marketplace_deletion (method : Method) (args : List (String × String))
    (body : Option Json) (now : String) : Nat × HttpBody :=
  match method with
  | .get =>
    let challenge := List.lookup "challenge_code" args
    let token := List.lookup "verification_token" args
    if token == some VERIFICATION_TOKEN && pyTruthyStr challenge then
      (200, .text (challenge.getD ""))
    else
      (400, .text "Verification failed")
  | .post =>
    match body with
    | none => (500, .json (.obj [("error", .str "Failed to decode JSON object")]))
    | some parsed =>
      let _data := pyOr parsed (.obj [])
      (200, .json (.obj [("status", .str "received"),
                         ("timestamp", .str now)]))

/-- The dispatch table of `handle_ebay_notification`: the `action` label
each known event type's handler answers with. -/
def actionFor (eventType : String) : String :=
  if eventType == "ItemSold" then "sale_recorded"
  else if eventType == "OrderPaid" then "payment_confirmed"
  else if eventType == "ShippingLabelRequested" then "tracking_provided"
  else "account_deletion_acknowledged"

/-! ## Helper lemmas -/

/-- The signature check accepts every input (both match arms return `true`). -/
theorem verify_sig_true (headers : List (String × String)) (payload tok : String) :
    verify_ebay_signature headers payload tok = true := by
  unfold verify_ebay_signature
  cases List.lookup "X-EBAY-SIGNATURE" headers <;> simp

/-- `itemSoldExtract` on a dict: every field defaulted, no raise. -/
theorem itemSoldExtract_obj (fields : List (String × Json)) :
    itemSoldExtract (.obj fields) =
      .ok ((List.lookup "itemId" fields).getD .null,
           (List.lookup "buyer" fields).getD (.obj []),
           (List.lookup "quantity" fields).getD (.num 1 0),
           (List.lookup "price" fields).getD (.num 0 0)) := rfl

/-- `orderPaidExtract` on a dict: every field defaulted, no raise. -/
theorem orderPaidExtract_obj (fields : List (String × Json)) :
    orderPaidExtract (.obj fields) =
      .ok ((List.lookup "orderId" fields).getD .null,
           (List.lookup "paymentStatus" fields).getD .null) := rfl

/-- `shippingExtract` on a dict: the field is defaulted, no raise. -/
theorem shippingExtract_obj (fields : List (String × Json)) :
    shippingExtract (.obj fields) = .ok ((List.lookup "orderId" fields).getD .null) := rfl

/-- `accountDeletionExtract` on a dict: every field defaulted, no raise. -/
theorem accountDeletionExtract_obj (fields : List (String × Json)) (now : String) :
    accountDeletionExtract (.obj fields) now =
      .ok ((List.lookup "userId" fields).getD (.str "unknown"),
           (List.lookup "deletionDate" fields).getD (.str now)) := rfl

/-- `deletionPostExtract` on a dict: every field defaulted, no raise. -/
theorem deletionPostExtract_obj (fields : List (String × Json)) (now : String) :
    deletionPostExtract (.obj fields) now =
      .ok ((List.lookup "userId" fields).getD (.str "unknown"),
           (List.lookup "marketplace" fields).getD (.str "eBay"),
           (List.lookup "deletionDate" fields).getD (.str now)) := rfl

/-- `deletionPostExtract` on a non-dict raises `AttributeError`. -/
theorem deletionPostExtract_not_obj (j : Json) (now : String) (h : j.isObj = false) :
    deletionPostExtract j now = .error "AttributeError" := by
  cases j with
  | obj fields => simp [Json.isObj] at h
  | null => rfl
  | bool b => rfl
  | num m e => rfl
  | str s => rfl
  | arr l => rfl

/-- The dispatcher always answers with status 200 or 500. -/
theorem ebay_status_cases (body : Option Json) (headers : List (String × String))
    (raw now : String) :
    (handle_ebay_notification body headers raw now).1 = 200 ∨
    (handle_ebay_notification body headers raw now).1 = 500 := by
  cases body with
  | none => exact Or.inr rfl
  | some data =>
    cases data with
    | obj fields =>
      left
      simp only [handle_ebay_notification, verify_sig_true, Bool.not_true,
        Bool.false_eq_true, if_false, pyGet]
      split_ifs <;> rfl
    | null => right; simp [handle_ebay_notification, verify_sig_true, pyGet]
    | bool b => right; simp [handle_ebay_notification, verify_sig_true, pyGet]
    | num m e => right; simp [handle_ebay_notification, verify_sig_true, pyGet]
    | str s => right; simp [handle_ebay_notification, verify_sig_true, pyGet]
    | arr l => right; simp [handle_ebay_notification, verify_sig_true, pyGet]

/-! ## Claim theorems -/

/-- C1: a POST to `/api/webhook/ebay` whose JSON object body carries an
`eventType` equal to one of the five known strings is answered with
status 200 and a JSON body whose `status` field is `processed` and whose
`action` field is the one §4.1's routing table lists for that event
type. -/
theorem ebay_known_event_processed
    (fields : List (String × Json)) (headers : List (String × String))
    (raw now et : String)
    (hev : List.lookup "eventType" fields = some (.str et))
    (hknown : et = "ItemSold" ∨ et = "OrderPaid" ∨ et = "ShippingLabelRequested" ∨
      et = "ACCOUNT_DELETION" ∨ et = "MARKETPLACE_ACCOUNT_DELETION") :
    (handle_ebay_notification (some (.obj fields)) headers raw now).1 = 200 ∧
    (handle_ebay_notification (some (.obj fields)) headers raw now).2.lookup? "status" =
      some (.str "processed") ∧
    (handle_ebay_notification (some (.obj fields)) headers raw now).2.lookup? "action" =
      some (.str (actionFor et)) := by
  rcases hknown with h | h | h | h | h <;> subst h <;>
    simp [handle_ebay_notification, verify_sig_true, pyGet, hev, jsonEqStr,
      handle_item_sold, itemSoldExtract_obj, handle_order_paid, orderPaidExtract_obj,
      handle_shipping_request, shippingExtract_obj, handle_account_deletion,
      accountDeletionExtract_obj, actionFor, Json.lookup?, List.lookup]

/-- C1 witness: the spec's concrete `ItemSold` scenario. -/
theorem ebay_known_event_processed_example :
    (handle_ebay_notification
      (some (.obj [("eventType", .str "ItemSold"), ("itemId", .str "X1"),
                   ("quantity", .num 2 0), ("price", .num 1999 2)]))
      [] "" "2025-10-12T00:00:00").1 = 200 ∧
    (handle_ebay_notification
      (some (.obj [("eventType", .str "ItemSold"), ("itemId", .str "X1"),
                   ("quantity", .num 2 0), ("price", .num 1999 2)]))
      [] "" "2025-10-12T00:00:00").2.lookup? "status" = some (.str "processed") ∧
    (handle_ebay_notification
      (some (.obj [("eventType", .str "ItemSold"), ("itemId", .str "X1"),
                   ("quantity", .num 2 0), ("price", .num 1999 2)]))
      [] "" "2025-10-12T00:00:00").2.lookup? "action" = some (.str "sale_recorded") := by
  simpa using ebay_known_event_processed
    [("eventType", .str "ItemSold"), ("itemId", .str "X1"),
     ("quantity", .num 2 0), ("price", .num 1999 2)]
    [] "" "2025-10-12T00:00:00" "ItemSold" (by simp) (Or.inl rfl)

/-- C2: a body that fails to parse as JSON is answered with status 500
and an `error` field, and the dispatcher is total — every request gets a
200 or 500 response, never an uncaught fault. -/
theorem ebay_nonjson_body_500 :
    (∀ headers raw now, handle_ebay_notification none headers raw now =
      (500, .obj [("error", .str "Processing failed")])) ∧
    (∀ headers raw now,
      (handle_ebay_notification none headers raw now).2.lookup? "error" =
        some (.str "Processing failed")) ∧
    (∀ body headers raw now,
      (handle_ebay_notification body headers raw now).1 = 200 ∨
      (handle_ebay_notification body headers raw now).1 = 500) :=
  ⟨fun _ _ _ => rfl, fun _ _ _ => rfl, ebay_status_cases⟩

/-- C6: `verify_ebay_signature` accepts every combination of headers,
payload and token, so the dispatcher's 401 `Invalid signature` branch is
unreachable for every input. -/
theorem signature_check_vacuous :
    (∀ headers payload tok, verify_ebay_signature headers payload tok = true) ∧
    (∀ body headers raw now,
      (handle_ebay_notification body headers raw now).1 ≠ 401) := by
  refine ⟨verify_sig_true, fun body headers raw now => ?_⟩
  rcases ebay_status_cases body headers raw now with h | h <;> simp [h]

/-- C10: a valid-JSON body that is not a JSON object (array, string,
number, boolean or null) makes the field lookup raise; the catch-all
answers 500 `Processing failed`, not 200 `received`. -/
theorem ebay_nonobject_body_500
    (j : Json) (headers : List (String × String)) (raw now : String)
    (h : j.isObj = false) :
    handle_ebay_notification (some j) headers raw now =
      (500, .obj [("error", .str "Processing failed")]) := by
  cases j with
  | obj fields => simp [Json.isObj] at h
  | null => simp [handle_ebay_notification, verify_sig_true, pyGet]
  | bool b => simp [handle_ebay_notification, verify_sig_true, pyGet]
  | num m e => simp [handle_ebay_notification, verify_sig_true, pyGet]
  | str s => simp [handle_ebay_notification, verify_sig_true, pyGet]
  | arr l => simp [handle_ebay_notification, verify_sig_true, pyGet]

/-- C10 witness: a JSON array body. -/
theorem ebay_nonobject_body_500_example :
    handle_ebay_notification (some (.arr [])) [] "" "2025-10-12T00:00:00" =
      (500, .obj [("error", .str "Processing failed")]) :=
  ebay_nonobject_body_500 (.arr []) [] "" "2025-10-12T00:00:00" rfl

/-- C4: a JSON object body whose `eventType` is absent or is a string
outside the known set is acknowledged with status 200 and a `received`
status — never treated as an error. -/
theorem ebay_unknown_event_received
    (fields : List (String × Json)) (headers : List (String × String)) (raw now : String)
    (h : List.lookup "eventType" fields = none ∨
      ∃ s, List.lookup "eventType" fields = some (.str s) ∧
        s ≠ "ItemSold" ∧ s ≠ "OrderPaid" ∧ s ≠ "ShippingLabelRequested" ∧
        s ≠ "ACCOUNT_DELETION" ∧ s ≠ "MARKETPLACE_ACCOUNT_DELETION") :
    handle_ebay_notification (some (.obj fields)) headers raw now =
      (200, .obj [("status", .str "received"),
                  ("verification_token", .str "verified")]) := by
  rcases h with h | ⟨s, hs, h1, h2, h3, h4, h5⟩
  · simp [handle_ebay_notification, verify_sig_true, pyGet, h, jsonEqStr]
  · simp [handle_ebay_notification, verify_sig_true, pyGet, hs, jsonEqStr,
      h1, h2, h3, h4, h5]

/-- C4 witness: an unrecognized event type and an absent one. -/
theorem ebay_unknown_event_received_example :
    handle_ebay_notification (some (.obj [("eventType", .str "BestOfferPlaced")]))
      [] "" "2025-10-12T00:00:00" =
      (200, .obj [("status", .str "received"),
                  ("verification_token", .str "verified")]) :=
  ebay_unknown_event_received [("eventType", .str "BestOfferPlaced")] [] ""
    "2025-10-12T00:00:00"
    (Or.inr ⟨"BestOfferPlaced", by simp, by simp, by simp, by simp, by simp, by simp⟩)

/-- C3: on `GET /webhooks/marketplace-account-deletion`, the correct
`verification_token` together with a non-empty `challenge_code` yields
200 with the challenge echoed as plain text; a wrong token or an absent
challenge yields 400 with an error message. -/
theorem render_token_verification
    (args : List (String × String)) (body : Option Json) (now c : String) :
    (List.lookup "challenge_code" args = some c → c ≠ "" →
      List.lookup "verification_token" args = some VERIFICATION_TOKEN →
      marketplace_deletion .get args body now = (200, .text c)) ∧
    (List.lookup "verification_token" args ≠ some VERIFICATION_TOKEN →
      marketplace_deletion .get args body now = (400, .text "Verification failed")) ∧
    (List.lookup "challenge_code" args = none →
      marketplace_deletion .get args body now = (400, .text "Verification failed")) := by
  refine ⟨fun hch hc htok => ?_, fun htok => ?_, fun hch => ?_⟩
  · simp [marketplace_deletion, hch, htok, pyTruthyStr, hc]
  · have hfalse : (List.lookup "verification_token" args ==
        some VERIFICATION_TOKEN) = false := beq_eq_false_iff_ne.mpr htok
    simp [marketplace_deletion, hfalse]
  · simp [marketplace_deletion, hch, pyTruthyStr]

/-- C3 witness: the spec's concrete scenario plus a wrong-token request. -/
theorem render_token_verification_example :
    marketplace_deletion .get
      [("challenge_code", "abc123"),
       ("verification_token", "alynt-drop-webhook-token-2025")] none "t" =
      (200, .text "abc123") ∧
    marketplace_deletion .get
      [("challenge_code", "abc123"), ("verification_token", "wrong")] none "t" =
      (400, .text "Verification failed") :=
  ⟨(render_token_verification _ none "t" "abc123").1 (by simp) (by simp)
      (by simp [VERIFICATION_TOKEN, List.lookup]),
   (render_token_verification
      [("challenge_code", "abc123"), ("verification_token", "wrong")]
      none "t" "abc123").2.1 (by simp [VERIFICATION_TOKEN, List.lookup])⟩

/-- C8: the token-trusting verification endpoints echo any non-empty
challenge back with status 200, whatever other (token) parameters the
request carries: `challenge` on `/api/webhook/ebay/verify`, and the
`challenge_code`-first chain on `/api/marketplace-account-deletion/verify`. -/
theorem verify_endpoints_echo_challenge
    (args : List (String × String)) (now c : String) :
    (List.lookup "challenge" args = some c → c ≠ "" →
      verify_webhook_endpoint args now = (200, .text c)) ∧
    (List.lookup "challenge_code" args = some c → c ≠ "" →
      verify_deletion_endpoint_test args now = (200, .text c)) := by
  refine ⟨fun h hc => ?_, fun h hc => ?_⟩
  · simp [verify_webhook_endpoint, h, pyTruthyStr, hc]
  · simp [verify_deletion_endpoint_test, pyOrStr, h, pyTruthyStr, hc]

/-- C8 witness: a token parameter is present and ignored on both
endpoints. -/
theorem verify_endpoints_echo_challenge_example :
    verify_webhook_endpoint
      [("challenge", "echo-me"), ("verification_token", "any-token")] "t" =
      (200, .text "echo-me") ∧
    verify_deletion_endpoint_test
      [("challenge_code", "echo-me"), ("verification_token", "any-token")] "t" =
      (200, .text "echo-me") :=
  ⟨(verify_endpoints_echo_challenge
      [("challenge", "echo-me"), ("verification_token", "any-token")] "t" "echo-me").1
      (by simp) (by simp),
   (verify_endpoints_echo_challenge
      [("challenge_code", "echo-me"), ("verification_token", "any-token")] "t" "echo-me").2
      (by simp) (by simp)⟩

/-- C9 counterexample: with `challenge=""` (present but empty) the echo
branch is skipped; two requests get timestamp-bearing JSON documents that
differ from each other, and neither is the plain-text echo of the empty
challenge.  The claim as stated fails at the challenge value `""`. -/
theorem empty_challenge_not_echoed :
    (verify_webhook_endpoint [("challenge", "")] "t1").2 ≠
      (verify_webhook_endpoint [("challenge", "")] "t2").2 ∧
    (verify_webhook_endpoint [("challenge", "")] "t1").2 ≠ HttpBody.text "" := by
  refine ⟨fun h => ?_, fun h => ?_⟩
  · simp [verify_webhook_endpoint, pyTruthyStr] at h
  · simp [verify_webhook_endpoint, pyTruthyStr] at h

/-- C9 (amended): for every NON-EMPTY challenge value `c`, two requests
to `GET /api/webhook/ebay/verify` carrying `challenge = c` produce the
same plain-text body, equal to `c`, whatever the rest of the query string
or the clock — the echoed body is a pure function of the challenge. -/
theorem echo_idempotent
    (args₁ args₂ : List (String × String)) (now₁ now₂ c : String)
    (hc : c ≠ "")
    (h₁ : List.lookup "challenge" args₁ = some c)
    (h₂ : List.lookup "challenge" args₂ = some c) :
    (verify_webhook_endpoint args₁ now₁).2 = .text c ∧
    (verify_webhook_endpoint args₁ now₁).2 = (verify_webhook_endpoint args₂ now₂).2 := by
  simp [verify_webhook_endpoint, h₁, h₂, pyTruthyStr, hc]

/-- C9 witness: two requests at different clock readings echo the same
body. -/
theorem echo_idempotent_example :
    (verify_webhook_endpoint [("challenge", "abc")] "t1").2 = .text "abc" ∧
    (verify_webhook_endpoint [("challenge", "abc")] "t1").2 =
      (verify_webhook_endpoint [("challenge", "abc")] "t2").2 :=
  echo_idempotent [("challenge", "abc")] [("challenge", "abc")] "t1" "t2" "abc"
    (by simp) (by simp) (by simp)

/-- C5: `POST /api/marketplace-account-deletion` never throws for a JSON
object body with any combination of `userId`/`marketplace`/`deletionDate`
missing, or for an absent body: defaults are substituted and the response
is 200 with `userDataDeleted = true`; and no input at all makes the
response report `userDataDeleted = false`. -/
theorem deletion_post_user_data_deleted :
    (∀ (fields : List (String × Json)) args headers now,
      (handle_marketplace_account_deletion .post args (some (.obj fields)) headers now).1
        = 200 ∧
      (handle_marketplace_account_deletion .post args (some (.obj fields)) headers
        now).2.jsonLookup? "userDataDeleted" = some (.bool true)) ∧
    (∀ args headers now,
      (handle_marketplace_account_deletion .post args (some .null) headers now).1 = 200 ∧
      (handle_marketplace_account_deletion .post args (some .null) headers
        now).2.jsonLookup? "userDataDeleted" = some (.bool true)) ∧
    (∀ args body headers now,
      (handle_marketplace_account_deletion .post args body headers
        now).2.jsonLookup? "userDataDeleted" ≠ some (.bool false)) := by
  refine ⟨fun fields args headers now => ?_, fun args headers now => ?_,
    fun args body headers now => ?_⟩
  · rcases fields with _ | ⟨p, rest⟩ <;>
      simp [handle_marketplace_account_deletion, pyOr, jsonTruthy,
        deletionPostExtract_obj, process_account_deletion, Json.lookup?,
        HttpBody.jsonLookup?, List.lookup]
  · simp [handle_marketplace_account_deletion, pyOr, jsonTruthy,
      deletionPostExtract_obj, process_account_deletion, Json.lookup?,
      HttpBody.jsonLookup?, List.lookup]
  · cases body with
    | none =>
      simp [handle_marketplace_account_deletion, HttpBody.jsonLookup?,
        Json.lookup?, List.lookup]
    | some parsed =>
      cases parsed with
      | null =>
        simp [handle_marketplace_account_deletion, pyOr, jsonTruthy,
          deletionPostExtract_obj, process_account_deletion, Json.lookup?,
          HttpBody.jsonLookup?, List.lookup]
      | bool b =>
        cases b <;>
          simp [handle_marketplace_account_deletion, pyOr, jsonTruthy,
            deletionPostExtract_obj, deletionPostExtract_not_obj, Json.isObj,
            process_account_deletion, Json.lookup?, HttpBody.jsonLookup?, List.lookup]
      | num m e =>
        by_cases hm : m = 0 <;>
          simp [handle_marketplace_account_deletion, pyOr, jsonTruthy, hm,
            deletionPostExtract_obj, deletionPostExtract_not_obj, Json.isObj,
            process_account_deletion, Json.lookup?, HttpBody.jsonLookup?, List.lookup]
      | str s =>
        by_cases hs : s = "" <;>
          simp [handle_marketplace_account_deletion, pyOr, jsonTruthy, hs,
            deletionPostExtract_obj, deletionPostExtract_not_obj, Json.isObj,
            process_account_deletion, Json.lookup?, HttpBody.jsonLookup?, List.lookup]
      | arr l =>
        rcases l with _ | ⟨x, xs⟩ <;>
          simp [handle_marketplace_account_deletion, pyOr, jsonTruthy,
            deletionPostExtract_obj, deletionPostExtract_not_obj, Json.isObj,
            process_account_deletion, Json.lookup?, HttpBody.jsonLookup?, List.lookup]
      | obj f =>
        rcases f with _ | ⟨p, rest⟩ <;>
          simp [handle_marketplace_account_deletion, pyOr, jsonTruthy,
            deletionPostExtract_obj, process_account_deletion, Json.lookup?,
            HttpBody.jsonLookup?, List.lookup]

/-- C7 counterexample: the field extraction of `handle_item_sold` applied
to the empty payload substitutes `None` for the missing `itemId` — a
value that is not `"unknown"`, not `1`, not `0`, and not a string (so not
the current timestamp either).  The claim's placeholder set is wrong for
`itemId` (and likewise `orderId` defaults to `None` and `marketplace` to
`"eBay"`). -/
theorem item_id_defaults_to_none :
    itemSoldExtract (Json.obj []) =
      .ok (Json.null, Json.obj [], Json.num 1 0, Json.num 0 0) ∧
    Json.null.isStr = false ∧
    Json.null ≠ Json.num 1 0 ∧ Json.null ≠ Json.num 0 0 :=
  ⟨rfl, rfl, fun h => Json.noConfusion h, fun h => Json.noConfusion h⟩

/-- C7 (amended): a missing field never raises — each per-event handler
extracts with a fixed default and still answers 200 — but the defaults
are: `None` for `itemId` and `orderId`, `"unknown"` for `userId`,
`"eBay"` for `marketplace`, `1` for `quantity`, `0` for `price`, and the
current timestamp for `deletionDate`. -/
theorem handlers_default_missing_fields
    (fields : List (String × Json)) (now : String)
    (hitem : List.lookup "itemId" fields = none)
    (hqty : List.lookup "quantity" fields = none)
    (hprice : List.lookup "price" fields = none)
    (horder : List.lookup "orderId" fields = none)
    (huser : List.lookup "userId" fields = none)
    (hmkt : List.lookup "marketplace" fields = none)
    (hdate : List.lookup "deletionDate" fields = none) :
    (∃ b, itemSoldExtract (.obj fields) =
      .ok (Json.null, b, Json.num 1 0, Json.num 0 0)) ∧
    (∃ p, orderPaidExtract (.obj fields) = .ok (Json.null, p)) ∧
    shippingExtract (.obj fields) = .ok Json.null ∧
    accountDeletionExtract (.obj fields) now =
      .ok (Json.str "unknown", Json.str now) ∧
    deletionPostExtract (.obj fields) now =
      .ok (Json.str "unknown", Json.str "eBay", Json.str now) ∧
    (handle_item_sold (.obj fields)).1 = 200 ∧
    (handle_order_paid (.obj fields)).1 = 200 ∧
    (handle_shipping_request (.obj fields)).1 = 200 ∧
    (handle_account_deletion (.obj fields) now).1 = 200 := by
  refine ⟨⟨(List.lookup "buyer" fields).getD (.obj []), ?_⟩,
    ⟨(List.lookup "paymentStatus" fields).getD .null, ?_⟩, ?_, ?_, ?_, rfl, rfl, rfl, rfl⟩
  · simp [itemSoldExtract_obj, hitem, hqty, hprice]
  · simp [orderPaidExtract_obj, horder]
  · simp [shippingExtract_obj, horder]
  · simp [accountDeletionExtract_obj, huser, hdate]
  · simp [deletionPostExtract_obj, huser, hmkt, hdate]

/-- C7 witness for the amended claim: the empty payload. -/
theorem handlers_default_missing_fields_example :
    (∃ b, itemSoldExtract (.obj []) =
      .ok (Json.null, b, Json.num 1 0, Json.num 0 0)) ∧
    (∃ p, orderPaidExtract (.obj []) = .ok (Json.null, p)) ∧
    shippingExtract (.obj []) = .ok Json.null ∧
    accountDeletionExtract (.obj []) "2025-10-12T00:00:00" =
      .ok (Json.str "unknown", Json.str "2025-10-12T00:00:00") ∧
    deletionPostExtract (.obj []) "2025-10-12T00:00:00" =
      .ok (Json.str "unknown", Json.str "eBay", Json.str "2025-10-12T00:00:00") ∧
    (handle_item_sold (.obj [])).1 = 200 ∧
    (handle_order_paid (.obj [])).1 = 200 ∧
    (handle_shipping_request (.obj [])).1 = 200 ∧
    (handle_account_deletion (.obj []) "2025-10-12T00:00:00").1 = 200 :=
  handlers_default_missing_fields [] "2025-10-12T00:00:00"
    rfl rfl rfl rfl rfl rfl rfl

end AlyntDrop
